import Mathlib

/-!
Verification of the gesture-driven particle scene (christmas-tree repository).

The development shallowly embeds the parts of the TypeScript source that the
claims are about:

* `src/services/HandGestureService.tsx` — the gesture classifier
  (`processLandmarks`, `countExtendedFingers`, `calculateDistance2D`);
* the app component (`getModeAndTextFromGesture`, `handleHandUpdate`,
  `handleHoverGesture`) — the interaction controller;
* `src/components/Scene3D/index.tsx` — the per-frame choreography
  (mode-change detection, FOCUS selection, SCATTER drift and bounce, the TEXT
  branch) and `addPhoto`;
* `src/utils/geometryCalculator.ts` — `calculateTreePosition`,
  `isOutOfBounds`, `calculateTextPositions` and friends;
* the configuration constants of `src/config/particles.config.ts` and
  `src/config/scene.config.ts`.

JavaScript numbers are modelled as real numbers (`ℝ`) where square roots and
trigonometric functions occur, and as rationals (`ℚ`) where only field
arithmetic and comparisons occur.  Randomness (`Math.random()`) is modelled by
explicit parameters (an index pick, a sampled pixel order).  Canvas
rasterization is not modelled; the sampled pixel list is a parameter of the
text-layout function.
-/

/-- Gesture labels, from `GestureType` in the typings
(`'PINCH' | 'FIST' | 'OPEN' | 'ONE' | 'TWO' | 'THREE' | 'FOUR' | 'FIVE' | 'NONE'`). -/
inductive GestureType where
  | PINCH | FIST | OPEN | ONE | TWO | THREE | FOUR | FIVE | NONE
deriving DecidableEq, Repr

/-- Formations, from `enum ExperienceMode { TREE, SCATTER, FOCUS, TEXT }`. -/
inductive ExperienceMode where
  | TREE | SCATTER | FOCUS | TEXT
deriving DecidableEq, Repr

/-! ## Interaction controller (App component)

State and handlers of the App component: `mode`, `text`, `hand`
(gesture and palm position) and the pointer-driven `hoverGesture` channel.
Palm positions are only compared for equality by the controller, so they are
modelled as rationals. -/

/-- Hand data as consumed by the controller: gesture plus palm position. -/
structure ControllerHandData where
  gesture : GestureType
  posX : ℚ
  posY : ℚ
deriving DecidableEq, Repr

/-- The controller-relevant fields of the App state
(`mode`, `text`, `hand`, `hoverGesture`). -/
structure AppState where
  mode : ExperienceMode
  text : String
  hand : ControllerHandData
  hoverGesture : Option GestureType
deriving DecidableEq, Repr

/-- `getModeAndTextFromGesture` of the App component: maps a gesture to the
next `(mode, text)` pair given the current ones.  The gesture→text table
(`PARTICLE_CONFIG.textMap`, whose concrete entries are not part of the
snapshot) is a parameter; `textMap[gesture] || ''` is `(tm g).getD ""`
(a missing or empty entry yields the empty string in both). -/
def getModeAndTextFromGesture (tm : GestureType → Option String)
    (gesture : GestureType) (currentMode : ExperienceMode) (currentText : String) :
    ExperienceMode × String :=
  match gesture with
  | .PINCH => (ExperienceMode.FOCUS, currentText)
  | .FIST => (ExperienceMode.TREE, currentText)
  | .OPEN => (ExperienceMode.SCATTER, currentText)
  | .ONE => (ExperienceMode.TEXT, (tm .ONE).getD "")
  | .TWO => (ExperienceMode.TEXT, (tm .TWO).getD "")
  | .THREE => (ExperienceMode.TEXT, (tm .THREE).getD "")
  | .FOUR => (ExperienceMode.TEXT, (tm .FOUR).getD "")
  | .FIVE => (ExperienceMode.TEXT, (tm .FIVE).getD "")
  | .NONE => (currentMode, currentText)

/-- The effective gesture of the controller:
`handData.gesture !== 'NONE' ? handData.gesture : (prev.hoverGesture || 'NONE')`. -/
def effectiveGesture (camera : GestureType) (hover : Option GestureType) : GestureType :=
  if camera ≠ GestureType.NONE then camera else hover.getD GestureType.NONE

/-- The resolution performed by both handlers: effective gesture, then
`getModeAndTextFromGesture`. -/
def resolveGesture (tm : GestureType → Option String) (camera : GestureType)
    (hover : Option GestureType) (prevMode : ExperienceMode) (prevText : String) :
    ExperienceMode × String :=
  getModeAndTextFromGesture tm (effectiveGesture camera hover) prevMode prevText

/-- `handleHandUpdate` of the App component: resolves the new mode and text and
updates the state only when the hand data, mode or text actually changed. -/
def handleHandUpdate (tm : GestureType → Option String) (s : AppState)
    (handData : ControllerHandData) : AppState :=
  let eff := effectiveGesture handData.gesture s.hoverGesture
  let mt := getModeAndTextFromGesture tm eff s.mode s.text
  if handData.gesture ≠ s.hand.gesture ∨ handData.posX ≠ s.hand.posX ∨
      handData.posY ≠ s.hand.posY ∨ mt.1 ≠ s.mode ∨ mt.2 ≠ s.text then
    { s with hand := handData, mode := mt.1, text := mt.2 }
  else
    s

/-- `handleHoverGesture` of the App component: ignores an unchanged hover
gesture, otherwise resolves with the stored camera gesture taking priority. -/
def handleHoverGesture (tm : GestureType → Option String) (s : AppState)
    (gesture : Option GestureType) : AppState :=
  if gesture = s.hoverGesture then s
  else
    let eff := if s.hand.gesture ≠ GestureType.NONE then s.hand.gesture
               else gesture.getD GestureType.NONE
    let mt := getModeAndTextFromGesture tm eff s.mode s.text
    { s with hoverGesture := gesture, mode := mt.1, text := mt.2 }

/-- Resolution rule as the specification states it: camera gesture when not
NONE, else hover when present, else NONE; PINCH→FOCUS (text unchanged),
FIST→TREE, OPEN→SCATTER, ONE..FIVE→TEXT with the table text (empty string when
the table has no entry), NONE→previous formation and text retained. -/
def specResolve (tm : GestureType → Option String) (camera : GestureType)
    (hover : Option GestureType) (prevMode : ExperienceMode) (prevText : String) :
    ExperienceMode × String :=
  let eff := if camera ≠ GestureType.NONE then camera
             else match hover with
               | some g => g
               | none => GestureType.NONE
  match eff with
  | .PINCH => (ExperienceMode.FOCUS, prevText)
  | .FIST => (ExperienceMode.TREE, prevText)
  | .OPEN => (ExperienceMode.SCATTER, prevText)
  | .ONE => (ExperienceMode.TEXT, (tm .ONE).getD "")
  | .TWO => (ExperienceMode.TEXT, (tm .TWO).getD "")
  | .THREE => (ExperienceMode.TEXT, (tm .THREE).getD "")
  | .FOUR => (ExperienceMode.TEXT, (tm .FOUR).getD "")
  | .FIVE => (ExperienceMode.TEXT, (tm .FIVE).getD "")
  | .NONE => (prevMode, prevText)

/-- Scene3D's per-frame mode-change detection
(`mode !== previousMode || (mode === TEXT && text !== previousText)`). -/
def sceneTransitionEvent (prevMode newMode : ExperienceMode)
    (prevText newText : String) : Bool :=
  decide (newMode ≠ prevMode) ||
    (decide (newMode = ExperienceMode.TEXT) && decide (newText ≠ prevText))

/-- Formation-transition events fired while feeding a gesture sequence through
`handleHandUpdate` frame by frame (palm held at the neutral centre):
the list of modes entered on each frame where Scene3D's change detection
fires. -/
def transitionList (tm : GestureType → Option String) (s : AppState) :
    List GestureType → List ExperienceMode
  | [] => []
  | g :: rest =>
    let s' := handleHandUpdate tm s ⟨g, 1/2, 1/2⟩
    if sceneTransitionEvent s.mode s'.mode s.text s'.text then
      s'.mode :: transitionList tm s' rest
    else
      transitionList tm s' rest

/-! ## Particle collections and the Scene3D state machine (C4, C6, C9)

Scene3D owns `particlesRef` (the main collection), `photoParticlesRef` (the
photo collection), `defaultPhotoParticleRef` (the placeholder),
`focusedPhotoRef` and the previous mode/text used for change detection.
Particles are identified by a stable id; meshes, materials and transforms are
irrelevant to the collection-membership claims and are omitted here (the
transform dynamics are modelled separately below). -/

/-- Particle type tags (`'DECORATION' | 'CANDY_CANE' | 'PHOTO'`). -/
inductive PType where
  | DECORATION | CANDY_CANE | PHOTO
deriving DecidableEq, Repr

/-- A collection member: a stable identity plus its type tag. -/
structure SParticle where
  pid : ℕ
  ptype : PType
deriving DecidableEq, Repr

/-- The collection-level state of Scene3D. -/
structure SceneState where
  particles : List SParticle
  photos : List SParticle
  defaultPhoto : Option ℕ
  focused : Option ℕ
  mode : ExperienceMode
  text : String
deriving DecidableEq, Repr

/-- Events acting on the Scene3D collection state: a rendered frame that sees a
(possibly changed) mode and text — `pick` stands for the value of
`Math.floor(Math.random() * photos.length)` and is taken modulo the photo count
— and an `addPhoto` call carrying the fresh particle's id. -/
inductive SceneEvent where
  | frameModeChange (m : ExperienceMode) (t : String) (pick : ℕ)
  | addPhoto (newId : ℕ)
deriving DecidableEq, Repr

/-- One step of the Scene3D collection state machine.

`frameModeChange` embeds the guard
`mode !== previousMode || (mode === TEXT && text !== previousText)` and, when
it fires, the FOCUS-selection block: entering FOCUS picks a random member of
the photo collection when it is non-empty (and leaves the selection untouched
when it is empty); any other target mode clears the selection.

`addPhoto` embeds the imperative-handle `addPhoto` followed by
`addPhotoToScene`: when a placeholder default photo exists it is first removed
from both collections (`filter (p => p !== defaultParticle)`) and the ref is
cleared; then the new PHOTO particle is pushed onto both collections. -/
def sceneStep : SceneEvent → SceneState → SceneState
  | .frameModeChange m t pick, s =>
    if m ≠ s.mode ∨ (m = ExperienceMode.TEXT ∧ t ≠ s.text) then
      let focused' :=
        if m = ExperienceMode.FOCUS then
          if h : 0 < s.photos.length then
            some (s.photos.get ⟨pick % s.photos.length, Nat.mod_lt pick h⟩).pid
          else s.focused
        else none
      { s with mode := m, text := t, focused := focused' }
    else s
  | .addPhoto newId, s =>
    let s1 :=
      match s.defaultPhoto with
      | some d =>
        { s with particles := s.particles.filter (fun p => decide (p.pid ≠ d)),
                 photos := s.photos.filter (fun p => decide (p.pid ≠ d)),
                 defaultPhoto := none }
      | none => s
    { s1 with particles := s1.particles ++ [⟨newId, PType.PHOTO⟩],
              photos := s1.photos ++ [⟨newId, PType.PHOTO⟩] }

/-- Reachability by scene events. -/
inductive SceneReachable : SceneState → SceneState → Prop where
  | refl (s : SceneState) : SceneReachable s s
  | step (s t : SceneState) (e : SceneEvent) (h : SceneReachable s t) :
      SceneReachable s (sceneStep e t)

/-- The focus-selection invariant claimed by the specification: the selection
is either none or the id of a member of the current photo collection. -/
def focusInv (s : SceneState) : Prop :=
  s.focused = none ∨ ∃ p ∈ s.photos, s.focused = some p.pid

/-- Absence of the stale-selection hazard: an `addPhoto` is safe unless the
placeholder exists and is the current focus selection. -/
def eventSafe : SceneEvent → SceneState → Prop
  | .addPhoto _, s => ∀ d, s.defaultPhoto = some d → s.focused ≠ some d
  | .frameModeChange _ _ _, _ => True

/-- Number of PHOTO-typed members of a collection. -/
def photoMemberCount (l : List SParticle) : ℕ :=
  (l.filter (fun p => decide (p.ptype = PType.PHOTO))).length

/-- Number of members carrying a given id. -/
def idCount (l : List SParticle) (d : ℕ) : ℕ :=
  (l.filter (fun p => decide (p.pid = d))).length

/-! ## Text layout (geometryCalculator.calculateTextPositions) (C4, C5)

The rasterization canvas is fixed at 1024×512; pixels are sampled on a stride-4
grid and kept when their alpha exceeds 128, then shuffled in place.  Canvas
drawing and the shuffle's randomness cannot be embedded, so the function below
takes the sampled, already-shuffled pixel list as a parameter; everything after
the shuffle is translated directly from the source.  `TEXT_MODE_CONFIG`
(fontSize, fontWeight, scale) is referenced by the source but its definition is
missing from the snapshot; only `scale` affects positions, so it is a
parameter. -/

/-- A sampled canvas pixel. -/
structure Pixel where
  px : ℕ
  py : ℕ
deriving DecidableEq, Repr

/-- A 3D position over the rationals (for the text layout, which uses only
field arithmetic). -/
structure Vec3Q where
  x : ℚ
  y : ℚ
  z : ℚ
deriving DecidableEq, Repr

/-- Rasterization canvas width (`const width = 1024`). -/
def textCanvasWidth : ℚ := 1024

/-- Rasterization canvas height (`const height = 512`). -/
def textCanvasHeight : ℚ := 512

/-- Pixel-to-3D conversion of the source:
`x = (pixel.x - width / 2) * scale * 0.1`,
`y = -(pixel.y - height / 2) * scale * 0.1`, `z = 0`. -/
def pixelTo3D (scale : ℚ) (p : Pixel) : Vec3Q :=
  ⟨((p.px : ℚ) - textCanvasWidth / 2) * scale * (1/10),
   -(((p.py : ℚ)) - textCanvasHeight / 2) * scale * (1/10),
   0⟩

/-- `calculateTextPositions`, translated from the source after the pixel scan
and shuffle: an empty pixel list yields `[]`; otherwise
`count = Math.min(particleCount, pixels.length)` is computed (and, as in the
source, never used), and the loop `for (i = 0; i < pixels.length; i++)` pushes
the conversion of `pixels[i % pixels.length]`. -/
def calculateTextPositions (scale : ℚ) (pixels : List Pixel)
    (particleCount : ℕ) : List Vec3Q :=
  if pixels = [] then []
  else
    let _count := min particleCount pixels.length
    (List.range pixels.length).map
      (fun i => pixelTo3D scale (pixels.getD (i % pixels.length) ⟨0, 0⟩))

/-- Text layout as the claim states it: one position per requested particle
index `k`, namely the conversion of `pixels[k % pixels.length]` (wrapping when
more particles are requested than distinct pixels). -/
def specTextPositions (scale : ℚ) (pixels : List Pixel)
    (particleCount : ℕ) : List Vec3Q :=
  (List.range particleCount).map
    (fun k => pixelTo3D scale (pixels.getD (k % pixels.length) ⟨0, 0⟩))

/-- Number of non-photo particles
(`particlesRef.current.filter(p => p.type !== 'PHOTO').length`). -/
def nonPhotoCount (ps : List SParticle) : ℕ :=
  (ps.filter (fun p => decide (p.ptype ≠ PType.PHOTO))).length

/-- The text-particle budget computed on TEXT entry or text change:
`Math.floor(nonPhotoCount * 0.9)`. -/
def textParticleBudget (ps : List SParticle) : ℕ :=
  Nat.floor ((nonPhotoCount ps : ℚ) * (9 / 10))

/-- The guard of Scene3D's TEXT branch deciding whether particle `i` is placed
on the glyph: `!isPhoto && i < textPositions.length`. -/
def textEligible (isPhoto : Bool) (i tlen : ℕ) : Bool :=
  !isPhoto && decide (i < tlen)

/-- How many particles of the collection are assigned cached text-layout
target positions on a TEXT frame, given the cached layout's length. -/
def textAssignedCount (ps : List SParticle) (tlen : ℕ) : ℕ :=
  (ps.enum.filter
    (fun pr => textEligible (decide (pr.2.ptype = PType.PHOTO)) pr.1 tlen)).length

/-! ## Real-vector geometry (geometryCalculator.ts, Scene3D per-frame dynamics)

Positions and velocities are `THREE.Vector3` values; only the operations the
source uses are modelled (`add`, `multiplyScalar`, `length`). -/

/-- A 3D vector over the reals. -/
structure Vec3 where
  x : ℝ
  y : ℝ
  z : ℝ

/-- Componentwise vector addition (`Vector3.add`). -/
noncomputable def Vec3.add (a b : Vec3) : Vec3 :=
  ⟨a.x + b.x, a.y + b.y, a.z + b.z⟩

noncomputable instance : Add Vec3 := ⟨Vec3.add⟩

/-- Scalar multiplication (`Vector3.multiplyScalar`). -/
noncomputable def Vec3.scale (s : ℝ) (v : Vec3) : Vec3 :=
  ⟨s * v.x, s * v.y, s * v.z⟩

/-- Euclidean length (`Vector3.length`). -/
noncomputable def vlen (v : Vec3) : ℝ :=
  Real.sqrt (v.x * v.x + v.y * v.y + v.z * v.z)

/-- Dot product, used to state what an "outward" velocity is. -/
noncomputable def vdot (a b : Vec3) : ℝ :=
  a.x * b.x + a.y * b.y + a.z * b.z

/-- `TREE_MODE_CONFIG.heightRange.min` (= -15). -/
noncomputable def TREE_heightMin : ℝ := -15

/-- `TREE_MODE_CONFIG.heightRange.max` (= 15). -/
noncomputable def TREE_heightMax : ℝ := 15

/-- `TREE_MODE_CONFIG.maxRadius` (= 15). -/
noncomputable def TREE_maxRadius : ℝ := 15

/-- `TREE_MODE_CONFIG.spiralDensity` (= 50π). -/
noncomputable def TREE_spiralDensity : ℝ := 50 * Real.pi

/-- `TREE_MODE_CONFIG.rotationSpeed` (= 0.2). -/
noncomputable def TREE_rotationSpeed : ℝ := 0.2

/-- `SCATTER_MODE_CONFIG.boundaryRadius` (= 25). -/
noncomputable def SCATTER_boundaryRadius : ℝ := 25

/-- `FOCUS_MODE_CONFIG.focusPosition` (= (0, 2, 35)). -/
noncomputable def FOCUS_focusPosition : Vec3 := ⟨0, 2, 35⟩

/-- `FOCUS_MODE_CONFIG.backgroundDistanceMultiplier` (= 1.5). -/
noncomputable def FOCUS_backgroundDistanceMultiplier : ℝ := 1.5

/-- `calculateTreePosition`: the spiral-cone position for particle `index` of
`totalCount`; `t = index / totalCount`, height interpolates the configured
range, radius shrinks linearly from `maxRadius` to 0, angle is
`t * spiralDensity`. -/
noncomputable def calculateTreePosition (index totalCount : ℕ) : Vec3 :=
  let t : ℝ := (index : ℝ) / (totalCount : ℝ)
  let y := TREE_heightMin + t * (TREE_heightMax - TREE_heightMin)
  let radius := TREE_maxRadius * (1 - t)
  let angle := t * TREE_spiralDensity
  ⟨radius * Real.cos angle, y, radius * Real.sin angle⟩

/-- The radius of a tree position in the claim's sense:
`sqrt(x^2 + z^2)` of `calculateTreePosition`. -/
noncomputable def treeRadius (index totalCount : ℕ) : ℝ :=
  Real.sqrt ((calculateTreePosition index totalCount).x ^ 2 +
    (calculateTreePosition index totalCount).z ^ 2)

/-- `applyTreeRotation`: rigid rotation of (x, z) by `time * rotationSpeed`. -/
noncomputable def applyTreeRotation (position : Vec3) (time : ℝ) : Vec3 :=
  let angle := time * TREE_rotationSpeed
  ⟨position.x * Real.cos angle - position.z * Real.sin angle,
   position.y,
   position.x * Real.sin angle + position.z * Real.cos angle⟩

/-- `isOutOfBounds`: `position.length() > boundaryRadius`. -/
noncomputable def isOutOfBounds (position : Vec3) : Prop :=
  vlen position > SCATTER_boundaryRadius

noncomputable instance (position : Vec3) : Decidable (isOutOfBounds position) :=
  inferInstanceAs (Decidable (SCATTER_boundaryRadius < vlen position))

/-- `calculateBackgroundPosition`:
`basePosition.clone().multiplyScalar(multiplier)`. -/
noncomputable def calculateBackgroundPosition (basePosition : Vec3)
    (multiplier : ℝ) : Vec3 :=
  Vec3.scale multiplier basePosition

/-- The SCATTER drift-and-bounce step of the animate loop:
`basePosition.add(velocity); if (isOutOfBounds(basePosition))
velocity.multiplyScalar(-1)`.  Returns the advanced base position and the
possibly negated velocity. -/
noncomputable def scatterFrameStep (b v : Vec3) : Vec3 × Vec3 :=
  let advanced := b + v
  if isOutOfBounds advanced then (advanced, Vec3.scale (-1) v) else (advanced, v)

/-- The per-frame dynamic fields of a particle (`ParticleItem`): base, target
and tree positions, drift velocity, and whether it is a PHOTO particle.
Rotation, scale and material handling are orthogonal to the claims proved here
and are omitted. -/
structure ParticleDyn where
  basePosition : Vec3
  targetPosition : Vec3
  treePosition : Vec3
  velocity : Vec3
  isPhoto : Bool

/-- The position/velocity core of one iteration of Scene3D's per-particle
animate body, by active mode: TREE follows the rotated tree position, SCATTER
drifts with boundary bounce, FOCUS targets the focus point or the pushed-out
background position, and TEXT places glyph-eligible particles
(`!isPhoto && i < textPositions.length`) on the cached layout while all others
float with the SCATTER drift rule. -/
noncomputable def animateParticleCore (mode : ExperienceMode) (time : ℝ)
    (textPositions : List Vec3) (focused : Bool) (i : ℕ) (p : ParticleDyn) :
    ParticleDyn :=
  match mode with
  | .TREE => { p with targetPosition := applyTreeRotation p.treePosition time }
  | .SCATTER =>
    let s := scatterFrameStep p.basePosition p.velocity
    { p with basePosition := s.1, velocity := s.2, targetPosition := s.1 }
  | .FOCUS =>
    { p with targetPosition :=
        (if focused then FOCUS_focusPosition
         else calculateBackgroundPosition p.basePosition
          FOCUS_backgroundDistanceMultiplier) }
  | .TEXT =>
    if textEligible p.isPhoto i textPositions.length then
      { p with targetPosition := textPositions.getD i ⟨0, 0, 0⟩ }
    else
      let s := scatterFrameStep p.basePosition p.velocity
      { p with basePosition := s.1, velocity := s.2, targetPosition := s.1 }

/-! ## Gesture classifier (HandGestureService) (C1)

A hand frame is the 21 MediaPipe landmarks; the classifier uses only the x and
y coordinates.  Landmark indices as in `HAND_LANDMARKS`: 0 wrist, 3 thumb IP,
4 thumb tip, 6/8 index PIP/tip, 9 palm centre, 10/12 middle PIP/tip,
14/16 ring PIP/tip, 17 pinky MCP, 18/20 pinky PIP/tip. -/

/-- One tracked landmark (normalized camera-space coordinates). -/
structure Landmark where
  x : ℝ
  y : ℝ
  z : ℝ

/-- A frame of 21 landmarks. -/
def HandFrame := Fin 21 → Landmark

/-- `calculateDistance2D`: 2D Euclidean distance, ignoring z. -/
noncomputable def calculateDistance2D (p1 p2 : Landmark) : ℝ :=
  Real.sqrt ((p1.x - p2.x) * (p1.x - p2.x) + (p1.y - p2.y) * (p1.y - p2.y))

/-- `GESTURE_CONFIG.pinchThreshold` (= 0.05). -/
noncomputable def GESTURE_pinchThreshold : ℝ := 0.05

/-- `GESTURE_CONFIG.fistThreshold` (= 0.25). -/
noncomputable def GESTURE_fistThreshold : ℝ := 0.25

/-- `GESTURE_CONFIG.openThreshold` (= 0.4). -/
noncomputable def GESTURE_openThreshold : ℝ := 0.4

/-- The pinch distance of `processLandmarks`: thumb tip to index tip. -/
noncomputable def pinchDistance (lm : HandFrame) : ℝ :=
  calculateDistance2D (lm 4) (lm 8)

/-- `avgDistanceToWrist` of `processLandmarks`: the mean 2D distance from the
wrist to the index, middle, ring and pinky tips. -/
noncomputable def avgDistanceToWrist (lm : HandFrame) : ℝ :=
  (calculateDistance2D (lm 8) (lm 0) + calculateDistance2D (lm 12) (lm 0) +
    calculateDistance2D (lm 16) (lm 0) + calculateDistance2D (lm 20) (lm 0)) / 4

/-- `countExtendedFingers`: the thumb counts as extended when its tip is
farther from the pinky MCP than its IP joint is; each other finger counts as
extended when its tip-to-wrist distance exceeds 1.2 times its PIP-to-wrist
distance. -/
noncomputable def countExtendedFingers (lm : HandFrame) : ℕ :=
  (if calculateDistance2D (lm 4) (lm 17) > calculateDistance2D (lm 3) (lm 17)
    then 1 else 0) +
  ((if calculateDistance2D (lm 8) (lm 0) > calculateDistance2D (lm 6) (lm 0) * 1.2
    then 1 else 0) +
   (if calculateDistance2D (lm 12) (lm 0) > calculateDistance2D (lm 10) (lm 0) * 1.2
    then 1 else 0) +
   (if calculateDistance2D (lm 16) (lm 0) > calculateDistance2D (lm 14) (lm 0) * 1.2
    then 1 else 0) +
   (if calculateDistance2D (lm 20) (lm 0) > calculateDistance2D (lm 18) (lm 0) * 1.2
    then 1 else 0))

/-- The gesture decision of `processLandmarks`: PINCH when the pinch distance
is below the threshold; otherwise, with no extended finger, FIST when the
average tip-to-wrist distance is below the fist threshold (else NONE);
otherwise the switch on the extended-finger count (embedded as the equivalent
if chain): 2/3/4 → TWO/THREE/FOUR, and in the default case (1 or ≥ 5 extended)
OPEN when the average distance exceeds the open threshold or at least five
fingers are extended, else NONE. -/
noncomputable def processGesture (lm : HandFrame) : GestureType :=
  if pinchDistance lm < GESTURE_pinchThreshold then GestureType.PINCH
  else if countExtendedFingers lm = 0 then
    if avgDistanceToWrist lm < GESTURE_fistThreshold then GestureType.FIST
    else GestureType.NONE
  else
    if countExtendedFingers lm = 2 then GestureType.TWO
    else if countExtendedFingers lm = 3 then GestureType.THREE
    else if countExtendedFingers lm = 4 then GestureType.FOUR
    else if avgDistanceToWrist lm > GESTURE_openThreshold ∨ 5 ≤ countExtendedFingers lm
      then GestureType.OPEN else GestureType.NONE

/-- Full `processLandmarks` result: the gesture plus the palm-centre
(landmark 9) position. -/
noncomputable def processLandmarks (lm : HandFrame) : GestureType × ℝ × ℝ :=
  (processGesture lm, (lm 9).x, (lm 9).y)

/-- The classification priority chain exactly as the claim states it:
(a) pinch below threshold → PINCH; (b) else count = 0 and average below fist
threshold → FIST; (c) else count ∈ {2,3,4} → TWO/THREE/FOUR; (d) else average
above open threshold or count ≥ 5 → OPEN; (e) else NONE. -/
noncomputable def claimedGestureChain (lm : HandFrame) : GestureType :=
  if pinchDistance lm < GESTURE_pinchThreshold then GestureType.PINCH
  else if countExtendedFingers lm = 0 ∧ avgDistanceToWrist lm < GESTURE_fistThreshold
    then GestureType.FIST
  else if countExtendedFingers lm = 2 then GestureType.TWO
  else if countExtendedFingers lm = 3 then GestureType.THREE
  else if countExtendedFingers lm = 4 then GestureType.FOUR
  else if avgDistanceToWrist lm > GESTURE_openThreshold ∨ 5 ≤ countExtendedFingers lm
    then GestureType.OPEN
  else GestureType.NONE

/-- The priority chain amended to match the source: the OPEN clause applies
only when at least one finger is counted extended (the source evaluates it
only inside the nonzero-count branch). -/
noncomputable def amendedGestureChain (lm : HandFrame) : GestureType :=
  if pinchDistance lm < GESTURE_pinchThreshold then GestureType.PINCH
  else if countExtendedFingers lm = 0 ∧ avgDistanceToWrist lm < GESTURE_fistThreshold
    then GestureType.FIST
  else if countExtendedFingers lm = 2 then GestureType.TWO
  else if countExtendedFingers lm = 3 then GestureType.THREE
  else if countExtendedFingers lm = 4 then GestureType.FOUR
  else if countExtendedFingers lm ≠ 0 ∧
      (avgDistanceToWrist lm > GESTURE_openThreshold ∨ 5 ≤ countExtendedFingers lm)
    then GestureType.OPEN
  else GestureType.NONE

/-! ## Concrete inputs used by counterexamples and witnesses -/

/-- Landmarks of a concrete hand frame: every fingertip lies 0.45 from the
wrist while every PIP joint lies 0.40 from it (so no finger counts as
extended, `0.45 ≤ 1.2 · 0.40`), the thumb tip coincides with the pinky MCP (so
the thumb does not count as extended), and the thumb tip is 0.35 from the
index tip (no pinch).  The average tip-to-wrist distance is 0.45, above the
open threshold 0.4.  All coordinates lie in [0, 1]. -/
noncomputable def exLandmark : ℕ → Landmark
  | 0 => ⟨0.5, 0.5, 0⟩
  | 3 => ⟨0.7, 0.5, 0⟩
  | 4 => ⟨0.6, 0.5, 0⟩
  | 6 => ⟨0.9, 0.5, 0⟩
  | 8 => ⟨0.95, 0.5, 0⟩
  | 10 => ⟨0.1, 0.5, 0⟩
  | 12 => ⟨0.05, 0.5, 0⟩
  | 14 => ⟨0.5, 0.9, 0⟩
  | 16 => ⟨0.5, 0.95, 0⟩
  | 17 => ⟨0.6, 0.5, 0⟩
  | 18 => ⟨0.5, 0.1, 0⟩
  | 20 => ⟨0.5, 0.05, 0⟩
  | _ => ⟨0.5, 0.5, 0⟩

/-- The concrete hand frame built from `exLandmark`. -/
noncomputable def exFrame : HandFrame := fun i => exLandmark i.val

/-- A sample gesture→text table (the snapshot does not contain the concrete
`textMap` entries; any table works for the controller theorems). -/
def sampleTextMap : GestureType → Option String
  | .TWO => some "2"
  | .THREE => some "3"
  | .FOUR => some "4"
  | _ => none

/-- A concrete controller state in SCATTER with no hover input. -/
def c2State : AppState :=
  { mode := ExperienceMode.SCATTER, text := "",
    hand := ⟨GestureType.NONE, 1/2, 1/2⟩, hoverGesture := none }

/-- A concrete controller state used by the resolution witness: camera reports
NONE and a hover gesture is about to arrive. -/
def c3State : AppState :=
  { mode := ExperienceMode.TREE, text := "",
    hand := ⟨GestureType.NONE, 1/2, 1/2⟩, hoverGesture := none }

/-- Post-initialization collection state: decorations plus the placeholder
default photo (id 1), no focus selection, TREE mode. -/
def cx0 : SceneState :=
  { particles := [⟨0, PType.DECORATION⟩, ⟨1, PType.PHOTO⟩],
    photos := [⟨1, PType.PHOTO⟩],
    defaultPhoto := some 1, focused := none,
    mode := ExperienceMode.TREE, text := "" }

/-- `cx0` after a frame that enters FOCUS: the placeholder is picked as the
focus selection. -/
def cx1 : SceneState :=
  sceneStep (SceneEvent.frameModeChange ExperienceMode.FOCUS "" 0) cx0

/-- `cx1` after `addPhoto` with fresh id 2: the placeholder is removed from
both collections while it is still the focus selection. -/
def cx2 : SceneState :=
  sceneStep (SceneEvent.addPhoto 2) cx1

/-- A collection state without a placeholder, used by the `addPhoto`
witness. -/
def c9State : SceneState :=
  { particles := [⟨0, PType.DECORATION⟩, ⟨3, PType.PHOTO⟩, ⟨4, PType.CANDY_CANE⟩],
    photos := [⟨3, PType.PHOTO⟩],
    defaultPhoto := none, focused := none,
    mode := ExperienceMode.SCATTER, text := "" }

/-- Ten non-photo particles, as counted on a TEXT entry. -/
def c4Particles : List SParticle :=
  (List.range 10).map (fun k => ⟨k, PType.DECORATION⟩)

/-- Twenty sampled pixels (a glyph sampling larger than the particle
budget). -/
def c4Pixels : List Pixel :=
  (List.range 20).map (fun k => ⟨4 * k, 0⟩)

/-- Two sampled pixels, fewer than the requested particle count. -/
def c5Pixels : List Pixel := [⟨0, 0⟩, ⟨4, 4⟩]

/-! ## Helper lemmas -/

/-- Applying the gesture mapping twice with the same gesture is the same as
applying it once. -/
theorem getModeAndText_idem (tm : GestureType → Option String) (g : GestureType)
    (m : ExperienceMode) (t : String) :
    getModeAndTextFromGesture tm g
      (getModeAndTextFromGesture tm g m t).1 (getModeAndTextFromGesture tm g m t).2 =
      getModeAndTextFromGesture tm g m t := by
  cases g <;> rfl

/-- Scene3D's change detection never fires when mode and text are unchanged. -/
theorem sceneTransitionEvent_self (m : ExperienceMode) (t : String) :
    sceneTransitionEvent m m t t = false := by
  simp [sceneTransitionEvent]

/-- A held (identical) hand update is absorbed: the second application of
`handleHandUpdate` with the same hand data changes nothing. -/
theorem handleHandUpdate_idem (tm : GestureType → Option String) (s : AppState)
    (h : ControllerHandData) :
    handleHandUpdate tm (handleHandUpdate tm s h) h = handleHandUpdate tm s h := by
  by_cases hc : (h.gesture ≠ s.hand.gesture ∨ h.posX ≠ s.hand.posX ∨
      h.posY ≠ s.hand.posY ∨
      (getModeAndTextFromGesture tm (effectiveGesture h.gesture s.hoverGesture)
        s.mode s.text).1 ≠ s.mode ∨
      (getModeAndTextFromGesture tm (effectiveGesture h.gesture s.hoverGesture)
        s.mode s.text).2 ≠ s.text)
  · have e1 : handleHandUpdate tm s h =
        { s with
          hand := h,
          mode := (getModeAndTextFromGesture tm (effectiveGesture h.gesture s.hoverGesture) s.mode s.text).1,
          text := (getModeAndTextFromGesture tm (effectiveGesture h.gesture s.hoverGesture) s.mode s.text).2 } := by
      unfold handleHandUpdate
      exact if_pos hc
    rw [e1]
    unfold handleHandUpdate
    rw [if_neg]
    intro hcon
    rcases hcon with h1 | h2 | h3 | h4 | h5
    · exact h1 rfl
    · exact h2 rfl
    · exact h3 rfl
    · exact h4 (by rw [getModeAndText_idem])
    · exact h5 (by rw [getModeAndText_idem])
  · have e1 : handleHandUpdate tm s h = s := by
      unfold handleHandUpdate
      exact if_neg hc
    rw [e1, e1]

/-- Claim C2: feeding the controller the per-frame gesture sequence
[FIST, FIST, OPEN, OPEN, OPEN] with no hover input, from any state not already
in TREE, fires exactly two formation-transition events — a TREE entry and a
SCATTER entry — and, in general, a gesture held unchanged across consecutive
frames never re-triggers entry logic (the second identical update is
absorbed). -/
theorem c2_held_gesture_transitions :
    (∀ (tm : GestureType → Option String) (s : AppState),
      s.mode ≠ ExperienceMode.TREE → s.hoverGesture = none →
      transitionList tm s
        [GestureType.FIST, GestureType.FIST, GestureType.OPEN,
         GestureType.OPEN, GestureType.OPEN] =
        [ExperienceMode.TREE, ExperienceMode.SCATTER])
    ∧ (∀ (tm : GestureType → Option String) (s : AppState) (h : ControllerHandData),
      handleHandUpdate tm (handleHandUpdate tm s h) h = handleHandUpdate tm s h) := by
  constructor
  · intro tm s hmode _hhover
    have hcond1 : (GestureType.FIST ≠ s.hand.gesture ∨ (1/2 : ℚ) ≠ s.hand.posX ∨
        (1/2 : ℚ) ≠ s.hand.posY ∨
        (getModeAndTextFromGesture tm (effectiveGesture GestureType.FIST s.hoverGesture) s.mode s.text).1 ≠ s.mode ∨
        (getModeAndTextFromGesture tm (effectiveGesture GestureType.FIST s.hoverGesture) s.mode s.text).2 ≠ s.text) :=
      Or.inr (Or.inr (Or.inr (Or.inl (fun he => hmode he.symm))))
    have h1 : handleHandUpdate tm s ⟨GestureType.FIST, 1/2, 1/2⟩ =
        { s with hand := ⟨GestureType.FIST, 1/2, 1/2⟩, mode := ExperienceMode.TREE } := by
      unfold handleHandUpdate
      exact if_pos hcond1
    have h2 : handleHandUpdate tm
        ({ s with hand := ⟨GestureType.FIST, 1/2, 1/2⟩, mode := ExperienceMode.TREE })
        ⟨GestureType.FIST, 1/2, 1/2⟩ =
        { s with hand := ⟨GestureType.FIST, 1/2, 1/2⟩, mode := ExperienceMode.TREE } := by
      have hidem := handleHandUpdate_idem tm s ⟨GestureType.FIST, 1/2, 1/2⟩
      rw [h1] at hidem
      exact hidem
    have hcond3 : (GestureType.OPEN ≠
        ({ s with hand := ⟨GestureType.FIST, 1/2, 1/2⟩, mode := ExperienceMode.TREE } : AppState).hand.gesture ∨
        (1/2 : ℚ) ≠ ({ s with hand := ⟨GestureType.FIST, 1/2, 1/2⟩, mode := ExperienceMode.TREE } : AppState).hand.posX ∨
        (1/2 : ℚ) ≠ ({ s with hand := ⟨GestureType.FIST, 1/2, 1/2⟩, mode := ExperienceMode.TREE } : AppState).hand.posY ∨
        (getModeAndTextFromGesture tm (effectiveGesture GestureType.OPEN s.hoverGesture) s.mode s.text).1 ≠
          ({ s with hand := ⟨GestureType.FIST, 1/2, 1/2⟩, mode := ExperienceMode.TREE } : AppState).mode ∨
        (getModeAndTextFromGesture tm (effectiveGesture GestureType.OPEN s.hoverGesture) s.mode s.text).2 ≠
          ({ s with hand := ⟨GestureType.FIST, 1/2, 1/2⟩, mode := ExperienceMode.TREE } : AppState).text) :=
      Or.inl (fun he => nomatch he)
    have h3 : handleHandUpdate tm
        ({ s with hand := ⟨GestureType.FIST, 1/2, 1/2⟩, mode := ExperienceMode.TREE })
        ⟨GestureType.OPEN, 1/2, 1/2⟩ =
        { s with hand := ⟨GestureType.OPEN, 1/2, 1/2⟩, mode := ExperienceMode.SCATTER } := by
      unfold handleHandUpdate
      exact if_pos hcond3
    have h4 : handleHandUpdate tm
        ({ s with hand := ⟨GestureType.OPEN, 1/2, 1/2⟩, mode := ExperienceMode.SCATTER })
        ⟨GestureType.OPEN, 1/2, 1/2⟩ =
        { s with hand := ⟨GestureType.OPEN, 1/2, 1/2⟩, mode := ExperienceMode.SCATTER } := by
      have hidem := handleHandUpdate_idem tm
        ({ s with hand := ⟨GestureType.FIST, 1/2, 1/2⟩, mode := ExperienceMode.TREE })
        ⟨GestureType.OPEN, 1/2, 1/2⟩
      rw [h3] at hidem
      exact hidem
    have hev1 : sceneTransitionEvent s.mode ExperienceMode.TREE s.text s.text = true := by
      simp only [sceneTransitionEvent, ne_eq, Bool.or_eq_true, decide_eq_true_eq]
      exact Or.inl (fun he => hmode he.symm)
    simp only [transitionList, h1, h2, h3, h4, hev1, sceneTransitionEvent_self]
    simp [sceneTransitionEvent]
  · exact fun tm s h => handleHandUpdate_idem tm s h

/-- Witness for C2 at a concrete SCATTER-mode state. -/
theorem c2_held_gesture_transitions_witness :
    c2State.mode ≠ ExperienceMode.TREE ∧ c2State.hoverGesture = none ∧
      transitionList sampleTextMap c2State
        [GestureType.FIST, GestureType.FIST, GestureType.OPEN,
         GestureType.OPEN, GestureType.OPEN] =
        [ExperienceMode.TREE, ExperienceMode.SCATTER] :=
  ⟨by decide, rfl,
    c2_held_gesture_transitions.1 sampleTextMap c2State (by decide) rfl⟩

/-- Claim C3: the controller's resolution uses the camera gesture when it is
not NONE, else the hover gesture when present, else NONE, and maps it as
PINCH→FOCUS (text unchanged), FIST→TREE, OPEN→SCATTER, ONE..FIVE→TEXT with the
configured table text (empty string for a missing entry), NONE→previous
formation and text retained; both handlers set mode and text through exactly
this resolution. -/
theorem c3_resolution_matches_spec :
    (∀ (tm : GestureType → Option String) (camera : GestureType)
        (hover : Option GestureType) (prevMode : ExperienceMode) (prevText : String),
      resolveGesture tm camera hover prevMode prevText =
        specResolve tm camera hover prevMode prevText)
    ∧ (∀ (tm : GestureType → Option String) (s : AppState) (handData : ControllerHandData),
      ((handleHandUpdate tm s handData).mode, (handleHandUpdate tm s handData).text) =
        resolveGesture tm handData.gesture s.hoverGesture s.mode s.text)
    ∧ (∀ (tm : GestureType → Option String) (s : AppState) (g : Option GestureType),
      g ≠ s.hoverGesture →
      ((handleHoverGesture tm s g).mode, (handleHoverGesture tm s g).text) =
        resolveGesture tm s.hand.gesture g s.mode s.text) := by
  refine ⟨?_, ?_, ?_⟩
  · intro tm camera hover prevMode prevText
    cases camera <;>
      first
        | rfl
        | (cases hover with
            | none => rfl
            | some g => cases g <;> rfl)
  · intro tm s handData
    by_cases hc : (handData.gesture ≠ s.hand.gesture ∨ handData.posX ≠ s.hand.posX ∨
        handData.posY ≠ s.hand.posY ∨
        (getModeAndTextFromGesture tm (effectiveGesture handData.gesture s.hoverGesture) s.mode s.text).1 ≠ s.mode ∨
        (getModeAndTextFromGesture tm (effectiveGesture handData.gesture s.hoverGesture) s.mode s.text).2 ≠ s.text)
    · have e1 : handleHandUpdate tm s handData =
          { s with
            hand := handData,
            mode := (getModeAndTextFromGesture tm (effectiveGesture handData.gesture s.hoverGesture) s.mode s.text).1,
            text := (getModeAndTextFromGesture tm (effectiveGesture handData.gesture s.hoverGesture) s.mode s.text).2 } := by
        unfold handleHandUpdate
        exact if_pos hc
      rw [e1]
      rfl
    · have e1 : handleHandUpdate tm s handData = s := by
        unfold handleHandUpdate
        exact if_neg hc
      rw [e1]
      push_neg at hc
      obtain ⟨-, -, -, h4, h5⟩ := hc
      unfold resolveGesture
      exact Prod.ext_iff.mpr ⟨h4.symm, h5.symm⟩
  · intro tm s g hg
    unfold handleHoverGesture
    rw [if_neg hg]
    rfl

/-- Witness for C3: a fresh hover FIST gesture with the camera at NONE drives
the handler through the resolution rule. -/
theorem c3_resolution_matches_spec_witness :
    (some GestureType.FIST ≠ c3State.hoverGesture) ∧
      ((handleHoverGesture sampleTextMap c3State (some GestureType.FIST)).mode,
        (handleHoverGesture sampleTextMap c3State (some GestureType.FIST)).text) =
        resolveGesture sampleTextMap c3State.hand.gesture (some GestureType.FIST)
          c3State.mode c3State.text :=
  ⟨by decide,
    c3_resolution_matches_spec.2.2 sampleTextMap c3State (some GestureType.FIST) (by decide)⟩

/-- Claim C4 (failing evaluation): with 10 non-photo particles the budget is
floor(10 · 0.9) = 9, yet `calculateTextPositions` called with that budget on a
20-pixel sampling returns 20 cached positions, and the TEXT-branch guard then
assigns glyph targets to all 10 non-photo particles — more than the budget. -/
theorem c4_text_budget_overrun :
    textParticleBudget c4Particles = 9 ∧
    (calculateTextPositions 1 c4Pixels (textParticleBudget c4Particles)).length = 20 ∧
    textAssignedCount c4Particles
      (calculateTextPositions 1 c4Pixels (textParticleBudget c4Particles)).length = 10 := by
  have h0 : nonPhotoCount c4Particles = 10 := by decide
  have h1 : textParticleBudget c4Particles = 9 := by
    rw [textParticleBudget, h0]
    norm_num
  have h2 : (calculateTextPositions 1 c4Pixels 9).length = 20 := by decide
  refine ⟨h1, ?_, ?_⟩
  · rw [h1]
    exact h2
  · rw [h1, h2]
    decide

/-- Claim C5 (failing evaluation): on a non-empty 2-pixel sampling with 5
requested particles, the source returns one position per sampled pixel
(length 2, the computed `Math.min` bound being unused and no wrapping
happening), while the claimed behaviour returns one position per requested
index (length 5). -/
theorem c5_layout_length_mismatch :
    c5Pixels ≠ [] ∧
    (calculateTextPositions 1 c5Pixels 5).length = 2 ∧
    (specTextPositions 1 c5Pixels 5).length = 5 ∧
    (calculateTextPositions 1 c5Pixels 5).length ≠ 5 := by
  refine ⟨by decide, by decide, by decide, by decide⟩

/-- A triggered frame rewrites the state: mode and text are stored and the
focus selection is recomputed. -/
theorem sceneStep_frame_eq (m : ExperienceMode) (t : String) (pick : ℕ)
    (s : SceneState) (hguard : m ≠ s.mode ∨ (m = ExperienceMode.TEXT ∧ t ≠ s.text)) :
    sceneStep (SceneEvent.frameModeChange m t pick) s =
      { s with
        mode := m, text := t,
        focused :=
          (if m = ExperienceMode.FOCUS then
            (if h : 0 < s.photos.length then
              some ((s.photos.get ⟨pick % s.photos.length, Nat.mod_lt pick h⟩).pid)
             else s.focused)
           else none) } := by
  simp only [sceneStep]
  rw [if_pos hguard]

/-- A frame whose mode and text are unchanged leaves the state untouched. -/
theorem sceneStep_frame_skip (m : ExperienceMode) (t : String) (pick : ℕ)
    (s : SceneState) (hguard : ¬(m ≠ s.mode ∨ (m = ExperienceMode.TEXT ∧ t ≠ s.text))) :
    sceneStep (SceneEvent.frameModeChange m t pick) s = s := by
  simp only [sceneStep]
  rw [if_neg hguard]

/-- `addPhoto` without a placeholder appends the new PHOTO particle to both
collections. -/
theorem sceneStep_addPhoto_none (s : SceneState) (n : ℕ)
    (hd : s.defaultPhoto = none) :
    sceneStep (SceneEvent.addPhoto n) s =
      { s with
        particles := s.particles ++ [⟨n, PType.PHOTO⟩],
        photos := s.photos ++ [⟨n, PType.PHOTO⟩] } := by
  simp only [sceneStep, hd]

/-- `addPhoto` with a placeholder first filters it out of both collections,
clears the placeholder ref, then appends the new PHOTO particle. -/
theorem sceneStep_addPhoto_some (s : SceneState) (n d : ℕ)
    (hd : s.defaultPhoto = some d) :
    sceneStep (SceneEvent.addPhoto n) s =
      { s with
        particles := s.particles.filter (fun p => decide (p.pid ≠ d)) ++ [⟨n, PType.PHOTO⟩],
        photos := s.photos.filter (fun p => decide (p.pid ≠ d)) ++ [⟨n, PType.PHOTO⟩],
        defaultPhoto := none } := by
  simp only [sceneStep, hd]

/-- Counterexample to claim C6: from a post-initialization state whose photo
collection holds only the placeholder, entering FOCUS selects the placeholder;
a subsequent `addPhoto` removes the placeholder from both collections but does
not clear the selection, reaching a state in FOCUS whose FocusSelection is
neither none nor a member of the photo collection. -/
theorem c6_focus_selection_counterexample :
    SceneReachable cx0 cx2 ∧
    cx0.focused = none ∧
    cx0.defaultPhoto = some 1 ∧
    cx2.mode = ExperienceMode.FOCUS ∧
    cx2.focused = some 1 ∧
    cx2.focused ≠ none ∧
    (cx2.photos.filter (fun p => decide (p.pid = 1))).length = 0 := by
  refine ⟨?_, rfl, rfl, by decide, by decide, by decide, by decide⟩
  have r1 : SceneReachable cx0 cx1 :=
    SceneReachable.step cx0 cx0
      (SceneEvent.frameModeChange ExperienceMode.FOCUS "" 0) (SceneReachable.refl cx0)
  exact SceneReachable.step cx0 cx1 (SceneEvent.addPhoto 2) r1

/-- Claim C6 as amended: every step preserves the membership invariant of the
focus selection, except that an `addPhoto` that removes the placeholder while
it is the current selection may break it (hence the `eventSafe` hypothesis);
a triggered frame whose target mode is not FOCUS clears the selection; a
triggered FOCUS entry picks a member of the photo collection when it is
non-empty and leaves the selection untouched when it is empty. -/
theorem c6_focus_selection_amended (s : SceneState) (e : SceneEvent)
    (hinv : focusInv s) (hsafe : eventSafe e s) :
    focusInv (sceneStep e s) ∧
    (∀ (m : ExperienceMode) (t : String) (pick : ℕ),
      (m ≠ s.mode ∨ (m = ExperienceMode.TEXT ∧ t ≠ s.text)) →
      m ≠ ExperienceMode.FOCUS →
      (sceneStep (SceneEvent.frameModeChange m t pick) s).focused = none) ∧
    (∀ (t : String) (pick : ℕ), ExperienceMode.FOCUS ≠ s.mode → 0 < s.photos.length →
      ∃ p ∈ s.photos,
        (sceneStep (SceneEvent.frameModeChange ExperienceMode.FOCUS t pick) s).focused =
          some p.pid) ∧
    (∀ (t : String) (pick : ℕ), ExperienceMode.FOCUS ≠ s.mode → s.photos.length = 0 →
      (sceneStep (SceneEvent.frameModeChange ExperienceMode.FOCUS t pick) s).focused =
        s.focused) := by
  refine ⟨?_, ?_, ?_, ?_⟩
  · cases e with
    | frameModeChange m t pick =>
      by_cases hguard : (m ≠ s.mode ∨ (m = ExperienceMode.TEXT ∧ t ≠ s.text))
      · rw [sceneStep_frame_eq m t pick s hguard]
        by_cases hm : m = ExperienceMode.FOCUS
        · rw [focusInv]
          simp only [if_pos hm]
          by_cases hl : 0 < s.photos.length
          · rw [dif_pos hl]
            exact Or.inr ⟨s.photos.get ⟨pick % s.photos.length, Nat.mod_lt pick hl⟩,
              List.get_mem _ _ _, rfl⟩
          · rw [dif_neg hl]
            exact hinv
        · simp [focusInv, if_neg hm]
      · rw [sceneStep_frame_skip m t pick s hguard]
        exact hinv
    | addPhoto n =>
      rcases hinv with hnone | ⟨p, hp, hfoc⟩
      · cases hd : s.defaultPhoto with
        | none =>
          rw [sceneStep_addPhoto_none s n hd, focusInv]
          exact Or.inl hnone
        | some d =>
          rw [sceneStep_addPhoto_some s n d hd, focusInv]
          exact Or.inl hnone
      · cases hd : s.defaultPhoto with
        | none =>
          rw [sceneStep_addPhoto_none s n hd, focusInv]
          exact Or.inr ⟨p, List.mem_append_left _ hp, hfoc⟩
        | some d =>
          have hpd : p.pid ≠ d := by
            intro hpd
            exact hsafe d hd (hpd ▸ hfoc)
          rw [sceneStep_addPhoto_some s n d hd, focusInv]
          refine Or.inr ⟨p, List.mem_append_left _ ?_, hfoc⟩
          exact List.mem_filter.mpr ⟨hp, by simp [hpd]⟩
  · intro m t pick hguard hm
    rw [sceneStep_frame_eq m t pick s hguard]
    simp only [if_neg hm]
  · intro t pick hmode hl
    rw [sceneStep_frame_eq ExperienceMode.FOCUS t pick s (Or.inl hmode)]
    refine ⟨s.photos.get ⟨pick % s.photos.length, Nat.mod_lt pick hl⟩,
      List.get_mem _ _ _, ?_⟩
    simp only [if_pos rfl]
    rw [dif_pos hl]
    simp
  · intro t pick hmode hl
    rw [sceneStep_frame_eq ExperienceMode.FOCUS t pick s (Or.inl hmode)]
    simp only [if_pos rfl]
    rw [dif_neg (by omega : ¬ 0 < s.photos.length)]
    simp

/-- Witness for the amended C6 at the post-initialization state and a safe
`addPhoto`. -/
theorem c6_focus_selection_amended_witness :
    focusInv cx0 ∧ eventSafe (SceneEvent.addPhoto 5) cx0 ∧
      focusInv (sceneStep (SceneEvent.addPhoto 5) cx0) := by
  have h1 : focusInv cx0 := Or.inl rfl
  have h2 : eventSafe (SceneEvent.addPhoto 5) cx0 := by
    intro d hd
    injection hd with hd1
    subst hd1
    decide
  exact ⟨h1, h2, (c6_focus_selection_amended cx0 (SceneEvent.addPhoto 5) h1 h2).1⟩

/-- Splitting a list by a Boolean predicate preserves its length. -/
theorem length_filter_add_length_filter_not {α : Type} (p : α → Bool) (l : List α) :
    (l.filter p).length + (l.filter (fun a => !(p a))).length = l.length := by
  induction l with
  | nil => rfl
  | cons a l ih =>
    cases h : p a <;> simp [List.filter_cons, h] <;> omega

/-- Removing the unique placeholder drops the length by exactly one. -/
theorem length_filter_ne_of_idCount_one (l : List SParticle) (d : ℕ)
    (h : idCount l d = 1) :
    (l.filter (fun p => decide (p.pid ≠ d))).length + 1 = l.length := by
  have hsplit := length_filter_add_length_filter_not (fun p => decide (p.pid = d)) l
  have hrw : (l.filter (fun p => decide (p.pid ≠ d))) =
      (l.filter (fun p => !(decide (p.pid = d)))) := by
    simp only [ne_eq, decide_not]
  rw [hrw]
  rw [idCount] at h
  omega

/-- Claim C9: one `addPhoto` appends exactly one new PHOTO particle to both
the main and photo collections, after first removing the placeholder default
photo from both when it exists; without a placeholder both collections grow by
one (the photo collection by one PHOTO member), and with a (unique)
placeholder the collection sizes are unchanged, the placeholder id is gone and
the fresh PHOTO particle is present. -/
theorem c9_addPhoto_effect (s : SceneState) (n : ℕ) :
    (s.defaultPhoto = none →
      (sceneStep (SceneEvent.addPhoto n) s).particles = s.particles ++ [⟨n, PType.PHOTO⟩] ∧
      (sceneStep (SceneEvent.addPhoto n) s).photos = s.photos ++ [⟨n, PType.PHOTO⟩] ∧
      (sceneStep (SceneEvent.addPhoto n) s).particles.length = s.particles.length + 1 ∧
      photoMemberCount (sceneStep (SceneEvent.addPhoto n) s).photos =
        photoMemberCount s.photos + 1) ∧
    (∀ d, s.defaultPhoto = some d →
      (sceneStep (SceneEvent.addPhoto n) s).particles =
        s.particles.filter (fun p => decide (p.pid ≠ d)) ++ [⟨n, PType.PHOTO⟩] ∧
      (sceneStep (SceneEvent.addPhoto n) s).photos =
        s.photos.filter (fun p => decide (p.pid ≠ d)) ++ [⟨n, PType.PHOTO⟩] ∧
      (idCount s.particles d = 1 →
        (sceneStep (SceneEvent.addPhoto n) s).particles.length = s.particles.length) ∧
      (idCount s.photos d = 1 →
        (sceneStep (SceneEvent.addPhoto n) s).photos.length = s.photos.length) ∧
      (n ≠ d → idCount (sceneStep (SceneEvent.addPhoto n) s).particles d = 0) ∧
      idCount (sceneStep (SceneEvent.addPhoto n) s).particles n ≥ 1) := by
  constructor
  · intro hd
    rw [sceneStep_addPhoto_none s n hd]
    refine ⟨rfl, rfl, by simp, ?_⟩
    simp [photoMemberCount, List.filter_append]
  · intro d hd
    rw [sceneStep_addPhoto_some s n d hd]
    refine ⟨rfl, rfl, ?_, ?_, ?_, ?_⟩
    · intro h1
      have := length_filter_ne_of_idCount_one s.particles d h1
      simp only [List.length_append, List.length_cons, List.length_nil]
      omega
    · intro h1
      have := length_filter_ne_of_idCount_one s.photos d h1
      simp only [List.length_append, List.length_cons, List.length_nil]
      omega
    · intro hnd
      rw [idCount, List.filter_append]
      simp only [List.length_append]
      have h2 : ((s.particles.filter (fun p => decide (p.pid ≠ d))).filter
          (fun p => decide (p.pid = d))).length = 0 := by
        rw [List.length_eq_zero, List.filter_eq_nil_iff]
        intro a ha had
        have := (List.mem_filter.mp ha).2
        simp only [ne_eq, decide_eq_true_eq] at this had
        exact this had
      have h3 : (([(⟨n, PType.PHOTO⟩ : SParticle)]).filter
          (fun p => decide (p.pid = d))).length = 0 := by
        simp [List.filter, hnd]
      omega
    · rw [idCount, List.filter_append]
      simp [List.filter]

/-- Witness for C9: a fresh photo added to a placeholder-free state and to the
post-initialization state with the unique placeholder. -/
theorem c9_addPhoto_effect_witness :
    c9State.defaultPhoto = none ∧
    (sceneStep (SceneEvent.addPhoto 7) c9State).particles.length =
      c9State.particles.length + 1 ∧
    photoMemberCount (sceneStep (SceneEvent.addPhoto 7) c9State).photos =
      photoMemberCount c9State.photos + 1 ∧
    cx0.defaultPhoto = some 1 ∧ idCount cx0.particles 1 = 1 ∧
    (sceneStep (SceneEvent.addPhoto 7) cx0).particles.length = cx0.particles.length ∧
    idCount (sceneStep (SceneEvent.addPhoto 7) cx0).particles 1 = 0 :=
  ⟨rfl,
    ((c9_addPhoto_effect c9State 7).1 rfl).2.2.1,
    ((c9_addPhoto_effect c9State 7).1 rfl).2.2.2,
    rfl, by decide,
    ((c9_addPhoto_effect cx0 7).2 1 rfl).2.2.1 (by decide),
    ((c9_addPhoto_effect cx0 7).2 1 rfl).2.2.2.2.1 (by decide)⟩

/-- Componentwise description of vector addition. -/
theorem Vec3.add_def (a b : Vec3) : a + b = ⟨a.x + b.x, a.y + b.y, a.z + b.z⟩ := rfl

/-- Componentwise description of scalar multiplication. -/
theorem Vec3.scale_def (s : ℝ) (v : Vec3) : Vec3.scale s v = ⟨s * v.x, s * v.y, s * v.z⟩ := rfl

/-- Claim C10: one frame of the per-particle update, in any mode, either
leaves the drift velocity unchanged or multiplies the whole vector by -1, so
the absolute value of every velocity component is preserved. -/
theorem c10_velocity_magnitude_invariant (mode : ExperienceMode) (time : ℝ)
    (textPositions : List Vec3) (focused : Bool) (i : ℕ) (p : ParticleDyn) :
    ((animateParticleCore mode time textPositions focused i p).velocity = p.velocity ∨
      (animateParticleCore mode time textPositions focused i p).velocity =
        Vec3.scale (-1) p.velocity) ∧
    |(animateParticleCore mode time textPositions focused i p).velocity.x| = |p.velocity.x| ∧
    |(animateParticleCore mode time textPositions focused i p).velocity.y| = |p.velocity.y| ∧
    |(animateParticleCore mode time textPositions focused i p).velocity.z| = |p.velocity.z| := by
  have hv : (animateParticleCore mode time textPositions focused i p).velocity = p.velocity ∨
      (animateParticleCore mode time textPositions focused i p).velocity =
        Vec3.scale (-1) p.velocity := by
    cases mode with
    | TREE => exact Or.inl rfl
    | SCATTER =>
      simp only [animateParticleCore, scatterFrameStep]
      split_ifs with h
      · exact Or.inr rfl
      · exact Or.inl rfl
    | FOCUS => exact Or.inl rfl
    | TEXT =>
      simp only [animateParticleCore, scatterFrameStep]
      split_ifs with h1 h2
      · exact Or.inl rfl
      · exact Or.inr rfl
      · exact Or.inl rfl
  refine ⟨hv, ?_, ?_, ?_⟩ <;>
    rcases hv with h | h <;> rw [h] <;>
      simp [Vec3.scale_def, abs_mul]

/-- Evaluation helper: the square root of a product of a nonnegative number
with itself. -/
theorem sqrt_eval {a c : ℝ} (hc : 0 ≤ c) (h : c * c = a) : Real.sqrt a = c := by
  rw [← h]
  exact Real.sqrt_mul_self hc

/-- The radius of a spiral-cone position evaluates to the linear shrink
`maxRadius * (1 - index / totalCount)` for indices up to the count. -/
theorem treeRadius_eq (index totalCount : ℕ) (hN : 0 < totalCount)
    (h : index ≤ totalCount) :
    treeRadius index totalCount =
      TREE_maxRadius * (1 - (index : ℝ) / (totalCount : ℝ)) := by
  have hNpos : (0 : ℝ) < (totalCount : ℝ) := by exact_mod_cast hN
  have ht1 : (index : ℝ) / (totalCount : ℝ) ≤ 1 := by
    rw [div_le_one hNpos]
    exact_mod_cast h
  have hr0 : 0 ≤ TREE_maxRadius * (1 - (index : ℝ) / (totalCount : ℝ)) := by
    rw [TREE_maxRadius]
    nlinarith
  rw [treeRadius]
  simp only [calculateTreePosition]
  rw [show (TREE_maxRadius * (1 - (index : ℝ) / (totalCount : ℝ)) *
        Real.cos ((index : ℝ) / (totalCount : ℝ) * TREE_spiralDensity)) ^ 2 +
      (TREE_maxRadius * (1 - (index : ℝ) / (totalCount : ℝ)) *
        Real.sin ((index : ℝ) / (totalCount : ℝ) * TREE_spiralDensity)) ^ 2 =
      (TREE_maxRadius * (1 - (index : ℝ) / (totalCount : ℝ))) ^ 2 by
    linear_combination (TREE_maxRadius * (1 - (index : ℝ) / (totalCount : ℝ))) ^ 2 *
      Real.sin_sq_add_cos_sq ((index : ℝ) / (totalCount : ℝ) * TREE_spiralDensity)]
  rw [sq]
  exact sqrt_eval hr0 rfl

/-- Claim C7: for indices `i ≤ j < N` (with `N > 0`), the spiral-cone height
is monotonically non-decreasing and the radius `sqrt(x² + z²)` monotonically
non-increasing, with radius `maxRadius` at index 0 and radius 0 at index `N`;
the configured height range satisfies min < max and the configured maxRadius
is positive. -/
theorem c7_tree_spiral_monotone (N i j : ℕ) (hN : 0 < N) (hij : i ≤ j) (hjN : j < N) :
    (calculateTreePosition i N).y ≤ (calculateTreePosition j N).y ∧
    treeRadius j N ≤ treeRadius i N ∧
    treeRadius 0 N = TREE_maxRadius ∧
    treeRadius N N = 0 ∧
    TREE_heightMin < TREE_heightMax ∧ 0 < TREE_maxRadius := by
  have hNpos : (0 : ℝ) < (N : ℝ) := by exact_mod_cast hN
  have hdiv : (i : ℝ) / (N : ℝ) ≤ (j : ℝ) / (N : ℝ) := by
    apply div_le_div_of_nonneg_right ?_ (le_of_lt hNpos)
    exact_mod_cast hij
  refine ⟨?_, ?_, ?_, ?_, ?_, ?_⟩
  · simp only [calculateTreePosition]
    rw [TREE_heightMin, TREE_heightMax]
    nlinarith
  · rw [treeRadius_eq i N hN (le_of_lt (lt_of_le_of_lt hij hjN)),
      treeRadius_eq j N hN (le_of_lt hjN), TREE_maxRadius]
    nlinarith
  · rw [treeRadius_eq 0 N hN (Nat.zero_le N)]
    simp
  · rw [treeRadius_eq N N hN le_rfl]
    rw [div_self (ne_of_gt hNpos)]
    ring
  · rw [TREE_heightMin, TREE_heightMax]
    norm_num
  · rw [TREE_maxRadius]
    norm_num

/-- Witness for C7 at `N = 2`, `i = 0`, `j = 1`. -/
theorem c7_tree_spiral_monotone_witness :
    0 < 2 ∧ 0 ≤ 1 ∧ 1 < 2 ∧
    ((calculateTreePosition 0 2).y ≤ (calculateTreePosition 1 2).y ∧
      treeRadius 1 2 ≤ treeRadius 0 2 ∧
      treeRadius 0 2 = TREE_maxRadius ∧
      treeRadius 2 2 = 0 ∧
      TREE_heightMin < TREE_heightMax ∧ 0 < TREE_maxRadius) :=
  ⟨by decide, by decide, by decide,
    c7_tree_spiral_monotone 2 0 1 (by decide) (by decide) (by decide)⟩

/-- Claim C8: when the advanced base position `b + v` leaves the boundary
sphere and the velocity points outward at the pre-step position
(`0 ≤ vdot b v`, `v ≠ 0`), the SCATTER step negates every component of the
velocity, and the subsequent advance strictly decreases the base-position
magnitude. -/
theorem c8_boundary_bounce (b v : Vec3)
    (hout : vlen (b + v) > SCATTER_boundaryRadius)
    (houtward : 0 ≤ vdot b v)
    (hv : ¬(v.x = 0 ∧ v.y = 0 ∧ v.z = 0)) :
    (scatterFrameStep b v).2.x = -1 * v.x ∧
    (scatterFrameStep b v).2.y = -1 * v.y ∧
    (scatterFrameStep b v).2.z = -1 * v.z ∧
    vlen ((scatterFrameStep b v).1 + (scatterFrameStep b v).2) <
      vlen (scatterFrameStep b v).1 := by
  have hstep : scatterFrameStep b v = (b + v, Vec3.scale (-1) v) := by
    rw [scatterFrameStep]
    exact if_pos hout
  rw [hstep]
  refine ⟨rfl, rfl, rfl, ?_⟩
  obtain ⟨b1, b2, b3⟩ := b
  obtain ⟨v1, v2, v3⟩ := v
  simp only [vdot] at houtward
  simp only at hv
  have hsum : ((⟨b1, b2, b3⟩ : Vec3) + ⟨v1, v2, v3⟩) + Vec3.scale (-1) ⟨v1, v2, v3⟩ =
      (⟨b1, b2, b3⟩ : Vec3) := by
    rw [Vec3.add_def, Vec3.scale_def, Vec3.add_def]
    simp only [Vec3.mk.injEq]
    refine ⟨?_, ?_, ?_⟩ <;> ring
  rw [hsum]
  have hvv : 0 < v1 * v1 + v2 * v2 + v3 * v3 := by
    rcases lt_or_eq_of_le
        (by nlinarith [mul_self_nonneg v1, mul_self_nonneg v2, mul_self_nonneg v3] :
          (0:ℝ) ≤ v1 * v1 + v2 * v2 + v3 * v3) with h | h
    · exact h
    · exfalso
      apply hv
      refine ⟨?_, ?_, ?_⟩ <;>
        [skip; skip; skip] <;>
        nlinarith [mul_self_nonneg v1, mul_self_nonneg v2, mul_self_nonneg v3]
  rw [Vec3.add_def]
  rw [vlen, vlen]
  apply Real.sqrt_lt_sqrt
  · nlinarith [mul_self_nonneg b1, mul_self_nonneg b2, mul_self_nonneg b3]
  · simp only
    nlinarith

/-- Witness for C8: a particle at (25, 0, 0) with outward velocity (1, 0, 0)
crosses the boundary and bounces. -/
theorem c8_boundary_bounce_witness :
    vlen ((⟨25, 0, 0⟩ : Vec3) + ⟨1, 0, 0⟩) > SCATTER_boundaryRadius ∧
    0 ≤ vdot ⟨25, 0, 0⟩ ⟨1, 0, 0⟩ ∧
    ¬((⟨1, 0, 0⟩ : Vec3).x = 0 ∧ (⟨1, 0, 0⟩ : Vec3).y = 0 ∧ (⟨1, 0, 0⟩ : Vec3).z = 0) ∧
    vlen ((scatterFrameStep ⟨25, 0, 0⟩ ⟨1, 0, 0⟩).1 +
        (scatterFrameStep ⟨25, 0, 0⟩ ⟨1, 0, 0⟩).2) <
      vlen (scatterFrameStep ⟨25, 0, 0⟩ ⟨1, 0, 0⟩).1 := by
  have hadd : ((⟨25, 0, 0⟩ : Vec3) + ⟨1, 0, 0⟩) = (⟨26, 0, 0⟩ : Vec3) := by
    rw [Vec3.add_def]
    norm_num
  have h26 : vlen (⟨26, 0, 0⟩ : Vec3) = 26 := sqrt_eval (by norm_num) (by norm_num)
  have hout : vlen ((⟨25, 0, 0⟩ : Vec3) + ⟨1, 0, 0⟩) > SCATTER_boundaryRadius := by
    rw [hadd, h26, SCATTER_boundaryRadius]
    norm_num
  have hdot : (0:ℝ) ≤ vdot ⟨25, 0, 0⟩ ⟨1, 0, 0⟩ := by
    rw [vdot]
    norm_num
  have hnz : ¬((⟨1, 0, 0⟩ : Vec3).x = 0 ∧ (⟨1, 0, 0⟩ : Vec3).y = 0 ∧
      (⟨1, 0, 0⟩ : Vec3).z = 0) := by
    intro hc
    exact absurd hc.1 (by norm_num)
  exact ⟨hout, hdot, hnz,
    (c8_boundary_bounce ⟨25, 0, 0⟩ ⟨1, 0, 0⟩ hout hdot hnz).2.2.2⟩

/-- Claim C1 as amended: the classifier agrees with the priority chain in
which the OPEN clause additionally requires a nonzero extended-finger count
(the source evaluates OPEN only inside the nonzero-count branch, so a frame
with no extended finger and a large spread yields NONE, not OPEN). -/
theorem c1_priority_chain_amended (lm : HandFrame) :
    processGesture lm = amendedGestureChain lm := by
  rw [processGesture, amendedGestureChain]
  by_cases h1 : pinchDistance lm < GESTURE_pinchThreshold
  · simp only [if_pos h1]
  · simp only [if_neg h1]
    by_cases h2 : countExtendedFingers lm = 0
    · by_cases h3 : avgDistanceToWrist lm < GESTURE_fistThreshold
      · simp [h2, h3]
      · simp [h2, h3]
    · by_cases h4 : countExtendedFingers lm = 2
      · simp [h2, h4]
      · by_cases h5 : countExtendedFingers lm = 3
        · simp [h2, h4, h5]
        · by_cases h6 : countExtendedFingers lm = 4
          · simp [h2, h4, h5, h6]
          · by_cases h7 : avgDistanceToWrist lm > GESTURE_openThreshold ∨
                5 ≤ countExtendedFingers lm
            · simp [h2, h4, h5, h6, h7]
            · simp [h2, h4, h5, h6, h7]

/-- Counterexample to claim C1 as stated: on the concrete frame `exFrame` the
pinch distance is at the non-pinch side of the threshold, no finger counts as
extended, and the average spread (0.45) exceeds the open threshold (0.4), so
the claimed chain yields OPEN — but the classifier yields NONE, because its
OPEN test is unreachable when the extended-finger count is zero. -/
theorem c1_priority_chain_counterexample :
    ¬ pinchDistance exFrame < GESTURE_pinchThreshold ∧
    countExtendedFingers exFrame = 0 ∧
    avgDistanceToWrist exFrame > GESTURE_openThreshold ∧
    claimedGestureChain exFrame = GestureType.OPEN ∧
    processGesture exFrame = GestureType.NONE := by
  have he0 : exFrame 0 = ⟨0.5, 0.5, 0⟩ := rfl
  have he3 : exFrame 3 = ⟨0.7, 0.5, 0⟩ := rfl
  have he4 : exFrame 4 = ⟨0.6, 0.5, 0⟩ := rfl
  have he6 : exFrame 6 = ⟨0.9, 0.5, 0⟩ := rfl
  have he8 : exFrame 8 = ⟨0.95, 0.5, 0⟩ := rfl
  have he10 : exFrame 10 = ⟨0.1, 0.5, 0⟩ := rfl
  have he12 : exFrame 12 = ⟨0.05, 0.5, 0⟩ := rfl
  have he14 : exFrame 14 = ⟨0.5, 0.9, 0⟩ := rfl
  have he16 : exFrame 16 = ⟨0.5, 0.95, 0⟩ := rfl
  have he17 : exFrame 17 = ⟨0.6, 0.5, 0⟩ := rfl
  have he18 : exFrame 18 = ⟨0.5, 0.1, 0⟩ := rfl
  have he20 : exFrame 20 = ⟨0.5, 0.05, 0⟩ := rfl
  have d48 : calculateDistance2D (exFrame 4) (exFrame 8) = 0.35 :=
    sqrt_eval (by norm_num) (by rw [he4, he8]; norm_num)
  have d80 : calculateDistance2D (exFrame 8) (exFrame 0) = 0.45 :=
    sqrt_eval (by norm_num) (by rw [he8, he0]; norm_num)
  have d120 : calculateDistance2D (exFrame 12) (exFrame 0) = 0.45 :=
    sqrt_eval (by norm_num) (by rw [he12, he0]; norm_num)
  have d160 : calculateDistance2D (exFrame 16) (exFrame 0) = 0.45 :=
    sqrt_eval (by norm_num) (by rw [he16, he0]; norm_num)
  have d200 : calculateDistance2D (exFrame 20) (exFrame 0) = 0.45 :=
    sqrt_eval (by norm_num) (by rw [he20, he0]; norm_num)
  have d60 : calculateDistance2D (exFrame 6) (exFrame 0) = 0.4 :=
    sqrt_eval (by norm_num) (by rw [he6, he0]; norm_num)
  have d100 : calculateDistance2D (exFrame 10) (exFrame 0) = 0.4 :=
    sqrt_eval (by norm_num) (by rw [he10, he0]; norm_num)
  have d140 : calculateDistance2D (exFrame 14) (exFrame 0) = 0.4 :=
    sqrt_eval (by norm_num) (by rw [he14, he0]; norm_num)
  have d180 : calculateDistance2D (exFrame 18) (exFrame 0) = 0.4 :=
    sqrt_eval (by norm_num) (by rw [he18, he0]; norm_num)
  have d417 : calculateDistance2D (exFrame 4) (exFrame 17) = 0 :=
    sqrt_eval (by norm_num) (by rw [he4, he17]; norm_num)
  have d317 : calculateDistance2D (exFrame 3) (exFrame 17) = 0.1 :=
    sqrt_eval (by norm_num) (by rw [he3, he17]; norm_num)
  have hpinch : ¬ pinchDistance exFrame < GESTURE_pinchThreshold := by
    rw [pinchDistance, d48, GESTURE_pinchThreshold]
    norm_num
  have hext : countExtendedFingers exFrame = 0 := by
    rw [countExtendedFingers, d417, d317, d80, d60, d120, d100, d160, d140, d200, d180]
    norm_num
  have havg : avgDistanceToWrist exFrame = 0.45 := by
    rw [avgDistanceToWrist, d80, d120, d160, d200]
    norm_num
  have hopen : avgDistanceToWrist exFrame > GESTURE_openThreshold := by
    rw [havg, GESTURE_openThreshold]
    norm_num
  have hfist : ¬ avgDistanceToWrist exFrame < GESTURE_fistThreshold := by
    rw [havg, GESTURE_fistThreshold]
    norm_num
  refine ⟨hpinch, hext, hopen, ?_, ?_⟩
  · rw [claimedGestureChain]
    simp [hpinch, hext, hfist, hopen]
  · rw [processGesture]
    simp [hpinch, hext, hfist]
